import Mathlib

/-!
Shallow embedding of the homwing-gripper driver.

`core.py` supplies the pure codecs (control-register encoding, status and
fault decoding); `__init__.py` supplies the device session: register writes,
read decoding, and the two polling loops.  Machine integers are modelled as
`Nat`; the transport packs every written value into a 16-bit register word,
so the u16 boundary is an explicit `% 65536` at the point a value is handed
to the transport.  Fallible paths (transport failure, Python `ValueError` /
`IndexError`, the `asyncio.timeout` deadline) are modelled with `Except`.
-/

/-- The five control flags of `ControlRegister` (core.py).  Field names follow
the source, including the `move_to_targret` spelling. -/
structure ControlRegister where
  enable : Bool
  mode : Bool
  move_to_targret : Bool
  automatic_inspection : Bool
  automatic_patrol_inspection : Bool
deriving DecidableEq, Repr

/-- `ControlRegister.to_u8` (core.py lines 57-69): start from 0 and OR in a
fixed bit for each flag that is set. -/
def ControlRegister.to_u8 (c : ControlRegister) : Nat :=
  let ret : Nat := 0
  let ret := if c.enable then ret ||| 0x01 else ret
  let ret := if c.mode then ret ||| 0x02 else ret
  let ret := if c.move_to_targret then ret ||| 0x08 else ret
  let ret := if c.automatic_inspection then ret ||| 0x10 else ret
  let ret := if c.automatic_patrol_inspection then ret ||| 0x20 else ret
  ret

/-- Activation-state enum `GSTA` (core.py). -/
inductive GSTA where
  | RESET_OR_INSPECTION
  | ACTIVATING
  | RESERVED
  | ACTIVATED
deriving DecidableEq, Repr

/-- Numeric value of each `GSTA` member, as in the Python `IntEnum`. -/
def GSTA.toNat : GSTA → Nat
  | .RESET_OR_INSPECTION => 0
  | .ACTIVATING => 1
  | .RESERVED => 2
  | .ACTIVATED => 3

/-- The Python call `GSTA(n)`: succeeds exactly on the member values 0-3,
raises `ValueError` (here `none`) otherwise. -/
def GSTA.ofNat? : Nat → Option GSTA
  | 0 => some .RESET_OR_INSPECTION
  | 1 => some .ACTIVATING
  | 2 => some .RESERVED
  | 3 => some .ACTIVATED
  | _ => none

/-- Motion/object-detection enum `GOBJ` (core.py). -/
inductive GOBJ where
  | MOVING_TO_POSITION
  | INNER_SUPPORT
  | OUTER_CLIP
  | NO_OBJECT_DETECTED
deriving DecidableEq, Repr

/-- Numeric value of each `GOBJ` member, as in the Python `IntEnum`. -/
def GOBJ.toNat : GOBJ → Nat
  | .MOVING_TO_POSITION => 0
  | .INNER_SUPPORT => 1
  | .OUTER_CLIP => 2
  | .NO_OBJECT_DETECTED => 3

/-- The Python call `GOBJ(n)`: succeeds exactly on the member values 0-3. -/
def GOBJ.ofNat? : Nat → Option GOBJ
  | 0 => some .MOVING_TO_POSITION
  | 1 => some .INNER_SUPPORT
  | 2 => some .OUTER_CLIP
  | 3 => some .NO_OBJECT_DETECTED
  | _ => none

/-- Decoded gripper status word (core.py `GripperStatus`). -/
structure GripperStatus where
  gACT : Bool
  gDropSta : Bool
  gMODE : Bool
  gGTO : Bool
  gSTA : GSTA
  gOBJ : GOBJ
deriving DecidableEq, Repr

/-- `GripperStatus.from_u8` (core.py lines 104-113).  The masked 2-bit fields
are fed to the `IntEnum` constructors, which could in principle raise
`ValueError`; that path is the `none` case. -/
def GripperStatus.from_u8 (value : Nat) : Option GripperStatus :=
  match GSTA.ofNat? ((value >>> 4) &&& 0b11), GOBJ.ofNat? ((value >>> 6) &&& 0b11) with
  | some sta, some obj =>
      some { gACT := decide (value &&& (1 <<< 0) ≠ 0)
             gDropSta := decide (value &&& (1 <<< 1) ≠ 0)
             gMODE := decide (value &&& (1 <<< 2) ≠ 0)
             gGTO := decide (value &&& (1 <<< 3) ≠ 0)
             gSTA := sta
             gOBJ := obj }
  | _, _ => none

/-- Decoded fault flags (core.py `GripperFaultStatus`). -/
structure GripperFaultStatus where
  control_command_error : Bool
  communication_fault : Bool
  overcurrent_fault : Bool
  voltage_fault : Bool
  enabling_fault : Bool
  overtemperature_fault : Bool
  self_fault : Bool
deriving DecidableEq, Repr

/-- `GripperFaultStatus.from_u8` (core.py lines 133-143): one bit per flag,
total on every input. -/
def GripperFaultStatus.from_u8 (value : Nat) : GripperFaultStatus :=
  { control_command_error := decide (value &&& (1 <<< 0) ≠ 0)
    communication_fault := decide (value &&& (1 <<< 1) ≠ 0)
    overcurrent_fault := decide (value &&& (1 <<< 2) ≠ 0)
    voltage_fault := decide (value &&& (1 <<< 3) ≠ 0)
    enabling_fault := decide (value &&& (1 <<< 4) ≠ 0)
    overtemperature_fault := decide (value &&& (1 <<< 5) ≠ 0)
    self_fault := decide (value &&& (1 <<< 6) ≠ 0) }

/-- Fault byte plus position byte (core.py `FaultPosition`). -/
structure FaultPosition where
  fault : GripperFaultStatus
  position : Nat
deriving DecidableEq, Repr

/-- Argument record of `execute_control_movement` (core.py
`ExecuteControlMovement`). -/
structure ExecuteControlMovement where
  force : Nat
  speed : Nat
  position : Nat
deriving DecidableEq, Repr

/-! ## Device session (`__init__.py`)

Writes are modelled as the trace of `(register, word)` pairs handed to the
transport's `write_registers`; reads take the transport's raw result and
decode it.  Errors that can escape a session operation: a transport failure,
a Python `IndexError`/`ValueError` while decoding, and the `asyncio.timeout`
deadline of `wait_for_activation`. -/

/-- Errors observable from a session operation. -/
inductive SessionError where
  | transport
  | timeout
  | indexError
  | valueError
deriving DecidableEq, Repr

/-- Modelled from the spec: the writable register names `CONTROL`, `POSITION`
and `SPEED_FORCE` come from `homwing_gripper/registers.py`
(`ControlRegisters`), which is not among the provided sources; the spec's
register map lists them as three distinct control registers, so they are an
abstract three-element name type here. -/
inductive Reg where
  | CONTROL
  | POSITION
  | SPEED_FORCE
deriving DecidableEq, Repr

/-- One transport write: target register and the 16-bit word received by the
device. -/
structure RegWrite where
  reg : Reg
  value : Nat
deriving DecidableEq, Repr

/-- Hand a value to `write_registers`: the transport packs it as one 16-bit
register word, so the device receives it modulo 2^16. -/
def writeReg (r : Reg) (v : Nat) : RegWrite :=
  { reg := r, value := v % 65536 }

/-- `write_control_register` (lines 84-87): one write of `to_u8` to CONTROL. -/
def write_control_register (c : ControlRegister) : List RegWrite :=
  [writeReg .CONTROL c.to_u8]

/-- `clear_control_register` (lines 89-98): all flags false. -/
def clear_control_register : List RegWrite :=
  write_control_register ⟨false, false, false, false, false⟩

/-- `activate` (lines 100-109): only `enable` set. -/
def activate : List RegWrite :=
  write_control_register ⟨true, false, false, false, false⟩

/-- `stop` (lines 143-152): only `enable` set. -/
def stop : List RegWrite :=
  write_control_register ⟨true, false, false, false, false⟩

/-- `execute_move` (lines 154-163): `enable` and `move_to_targret` set. -/
def execute_move : List RegWrite :=
  write_control_register ⟨true, false, true, false, false⟩

/-- `_set_target_position` (lines 125-128): write `position << 8` to POSITION. -/
def _set_target_position (position : Nat) : List RegWrite :=
  [writeReg .POSITION (position <<< 8)]

/-- `set_target_position` (lines 122-123). -/
def set_target_position (position : Nat) : List RegWrite :=
  _set_target_position position

/-- `_set_speed_force` (lines 133-136): write `speed + (force << 8)` to
SPEED_FORCE. -/
def _set_speed_force (speed force : Nat) : List RegWrite :=
  [writeReg .SPEED_FORCE (speed + (force <<< 8))]

/-- `set_speed_force` (lines 130-131). -/
def set_speed_force (speed force : Nat) : List RegWrite :=
  _set_speed_force speed force

/-- `move_to_position` (lines 118-120): set the target position, then issue
the move command. -/
def move_to_position (position : Nat) : List RegWrite :=
  _set_target_position position ++ execute_move

/-- `execute_control_movement` (lines 138-141): `set_speed_force`, then
`move_to_position`, then `execute_move`. -/
def execute_control_movement (m : ExecuteControlMovement) : List RegWrite :=
  set_speed_force m.speed m.force ++ move_to_position m.position ++ execute_move

/-- `read_gripper_status` (lines 33-35): on transport success take
`result[0] & 0xFF` and decode with `GripperStatus.from_u8`. -/
def read_gripper_status (tr : Except Unit (List Nat)) :
    Except SessionError GripperStatus :=
  match tr with
  | .error _ => .error .transport
  | .ok regs =>
    match regs[0]? with
    | none => .error .indexError
    | some w =>
      match GripperStatus.from_u8 (w &&& 0xFF) with
      | none => .error .valueError
      | some s => .ok s

/-- `read_fault_position` (lines 43-48): fault flags from the low byte of
`result[0]`, position from the high byte. -/
def read_fault_position (tr : Except Unit (List Nat)) :
    Except SessionError FaultPosition :=
  match tr with
  | .error _ => .error .transport
  | .ok regs =>
    match regs[0]? with
    | none => .error .indexError
    | some w =>
      .ok { fault := GripperFaultStatus.from_u8 (w &&& 0xFF)
            position := (w >>> 8) &&& 0xFF }

/-- `wait_for_activation`'s loop body under `asyncio.timeout(5)`
(lines 165-171).  `reads i` is the transport result of the i-th status read;
`fuel` is the number of 100 ms sleeps still possible before the 5-second
deadline; the result counts the polls performed.  The deadline cancels the
sleep that would cross it, so with no fuel left a non-ACTIVATED read becomes
`timeout`. -/
def wait_for_activationGo (reads : Nat → Except Unit (List Nat)) :
    Nat → Nat → Except SessionError Nat
  | fuel, i =>
    match read_gripper_status (reads i) with
    | .error e => .error e
    | .ok s =>
      if s.gSTA = GSTA.ACTIVATED then .ok (i + 1)
      else
        match fuel with
        | 0 => .error .timeout
        | f + 1 => wait_for_activationGo reads f (i + 1)

/-- Poll interval of both loops: `asyncio.sleep(0.1)`, in milliseconds. -/
def pollIntervalMs : Nat := 100

/-- Deadline of `wait_for_activation`: `asyncio.timeout(5)`, in milliseconds. -/
def activationTimeoutMs : Nat := 5000

/-- `wait_for_activation` (lines 165-171): the polling loop with a budget of
`5000 / 100` sleeps before the deadline elapses. -/
def wait_for_activation (reads : Nat → Except Unit (List Nat)) :
    Except SessionError Nat :=
  wait_for_activationGo reads (activationTimeoutMs / pollIntervalMs) 0

/-- One run of `wait_for_move`'s loop (lines 111-116) observed for `fuel`
iterations: `none` means the loop was still running after `fuel` reads
(the loop itself has no bound), `some r` means it finished with outcome `r`
within them; a normal return carries the number of polls performed. -/
def wait_for_moveGo (reads : Nat → Except Unit (List Nat)) :
    Nat → Nat → Option (Except SessionError Nat)
  | 0, _ => none
  | fuel + 1, i =>
    match read_gripper_status (reads i) with
    | .error e => some (.error e)
    | .ok s =>
      if s.gOBJ ≠ GOBJ.MOVING_TO_POSITION then some (.ok (i + 1))
      else wait_for_moveGo reads fuel (i + 1)

/-- `wait_for_move` observed for `fuel` iterations, from the first read. -/
def wait_for_move (reads : Nat → Except Unit (List Nat)) (fuel : Nat) :
    Option (Except SessionError Nat) :=
  wait_for_moveGo reads fuel 0

/-- The session object: `__init__` (lines 19-21) stores the address with no
validation (the transport client is out of scope). -/
structure HomwingGripper where
  _address : Int
deriving DecidableEq, Repr

/-- `HomwingGripper.__init__` (lines 19-21): stores any address unchecked. -/
def HomwingGripper.init (address : Int) : HomwingGripper :=
  { _address := address }

/-- The `address` property getter (lines 23-25). -/
def HomwingGripper.address (g : HomwingGripper) : Int :=
  g._address

/-- The `address` property setter (lines 27-31): rejects only values
strictly greater than 247. -/
def HomwingGripper.setAddress (g : HomwingGripper) (value : Int) :
    Except String HomwingGripper :=
  if value > 247 then .error "Invalid Address"
  else .ok { g with _address := value }

/-! ## Helper lemmas -/

/-- Python's `bool(value & (1 << i))` is exactly the i-th bit test. -/
lemma and_one_shiftLeft (w i : Nat) :
    decide (w &&& (1 <<< i) ≠ 0) = w.testBit i := by
  have h1 : (1 : Nat) <<< i = 2 ^ i := by rw [Nat.shiftLeft_eq, one_mul]
  rw [h1, Nat.and_two_pow]
  cases h : w.testBit i <;> simp [(Nat.two_pow_pos i).ne']

/-- `GSTA(n)` succeeds on every masked 2-bit value and returns the member
with that numeric value. -/
lemma gsta_ofNat_total {n : Nat} (h : n < 4) :
    ∃ g, GSTA.ofNat? n = some g ∧ g.toNat = n := by
  interval_cases n <;> exact ⟨_, rfl, rfl⟩

/-- `GOBJ(n)` succeeds on every masked 2-bit value and returns the member
with that numeric value. -/
lemma gobj_ofNat_total {n : Nat} (h : n < 4) :
    ∃ g, GOBJ.ofNat? n = some g ∧ g.toNat = n := by
  interval_cases n <;> exact ⟨_, rfl, rfl⟩

/-- `GripperStatus.from_u8` is total and reads each field from its
documented bit position. -/
lemma exists_from_u8 (w : Nat) :
    ∃ s, GripperStatus.from_u8 w = some s ∧
      s.gACT = w.testBit 0 ∧ s.gDropSta = w.testBit 1 ∧
      s.gMODE = w.testBit 2 ∧ s.gGTO = w.testBit 3 ∧
      s.gSTA.toNat = (w >>> 4) &&& 0b11 ∧ s.gOBJ.toNat = (w >>> 6) &&& 0b11 := by
  have h4 : (w >>> 4) &&& 0b11 < 4 := Nat.lt_succ_of_le Nat.and_le_right
  have h6 : (w >>> 6) &&& 0b11 < 4 := Nat.lt_succ_of_le Nat.and_le_right
  obtain ⟨sta, hsta, hstaN⟩ := gsta_ofNat_total h4
  obtain ⟨obj, hobj, hobjN⟩ := gobj_ofNat_total h6
  refine ⟨{ gACT := decide (w &&& (1 <<< 0) ≠ 0), gDropSta := decide (w &&& (1 <<< 1) ≠ 0),
            gMODE := decide (w &&& (1 <<< 2) ≠ 0), gGTO := decide (w &&& (1 <<< 3) ≠ 0),
            gSTA := sta, gOBJ := obj },
    ?_, and_one_shiftLeft w 0, and_one_shiftLeft w 1,
    and_one_shiftLeft w 2, and_one_shiftLeft w 3, hstaN, hobjN⟩
  unfold GripperStatus.from_u8
  rw [hsta, hobj]

/-- A low-byte mask keeps the first eight bits. -/
lemma testBit_and_ff (w i : Nat) (h : i < 8) :
    (w &&& 0xFF).testBit i = w.testBit i := by
  rw [Nat.testBit_and]
  have : (0xFF : Nat).testBit i = true := by interval_cases i <;> decide
  simp [this]

/-- With the low operand below 2^8 the sum `speed + (force << 8)` has the
same bits as the OR of the two operands. -/
lemma add_shiftLeft_eq_lor (s f : Nat) (hs : s < 256) :
    s + (f <<< 8) = s ||| (f <<< 8) := by
  refine Nat.eq_of_testBit_eq fun j => ?_
  have hsum : s + f <<< 8 = 2 ^ 8 * f + s := by rw [Nat.shiftLeft_eq]; ring
  rw [hsum, Nat.testBit_mul_pow_two_add f hs j, Nat.testBit_lor,
    Nat.testBit_shiftLeft]
  by_cases hj : j < 8
  · simp [hj, Nat.not_le.mpr hj]
  · have h8 : 8 ≤ j := Nat.le_of_not_lt hj
    have hsj : s.testBit j = false :=
      Nat.testBit_lt_two_pow
        (lt_of_lt_of_le hs (Nat.pow_le_pow_right (show 0 < 2 by norm_num) h8))
    simp [hj, hsj, h8]

/-! ## Claims -/

/-- C1: `ControlRegister.to_u8` is the OR of fixed bit positions — enable
is bit 0, mode bit 1, move-to-target bit 3, automatic inspection bit 4,
patrol-inspection direction bit 5 — bit 2 is never set, and the command with
only `enable` and `move_to_targret` true encodes to 0x09. -/
theorem to_u8_fixed_bits (c : ControlRegister) :
    c.to_u8 = (if c.enable then 0x01 else 0) ||| (if c.mode then 0x02 else 0) |||
      (if c.move_to_targret then 0x08 else 0) |||
      (if c.automatic_inspection then 0x10 else 0) |||
      (if c.automatic_patrol_inspection then 0x20 else 0) ∧
    (c.to_u8).testBit 0 = c.enable ∧
    (c.to_u8).testBit 1 = c.mode ∧
    (c.to_u8).testBit 2 = false ∧
    (c.to_u8).testBit 3 = c.move_to_targret ∧
    (c.to_u8).testBit 4 = c.automatic_inspection ∧
    (c.to_u8).testBit 5 = c.automatic_patrol_inspection ∧
    ControlRegister.to_u8 ⟨true, false, true, false, false⟩ = 0x09 := by
  obtain ⟨e, m, t, a, p⟩ := c
  cases e <;> cases m <;> cases t <;> cases a <;> cases p <;>
    exact ⟨by decide, by decide, by decide, by decide, by decide, by decide,
      by decide, by decide⟩

/-- C2: for every word in 0..65535, `GripperStatus.from_u8` succeeds and
extracts `gACT` from bit 0, `gDropSta` from bit 1, `gMODE` from bit 2,
`gGTO` from bit 3, `gSTA` as `(word >> 4) & 0b11` and `gOBJ` as
`(word >> 6) & 0b11`. -/
theorem from_u8_total_and_bits (w : Nat) (_hw : w < 65536) :
    ∃ s, GripperStatus.from_u8 w = some s ∧
      s.gACT = w.testBit 0 ∧ s.gDropSta = w.testBit 1 ∧
      s.gMODE = w.testBit 2 ∧ s.gGTO = w.testBit 3 ∧
      s.gSTA.toNat = (w >>> 4) &&& 0b11 ∧
      s.gOBJ.toNat = (w >>> 6) &&& 0b11 :=
  exists_from_u8 w

/-- Witness for C2 at word 0xABCD. -/
theorem from_u8_total_and_bits_witness :
    (0xABCD : Nat) < 65536 ∧
    ∃ s, GripperStatus.from_u8 0xABCD = some s ∧
      s.gACT = (0xABCD : Nat).testBit 0 ∧ s.gDropSta = (0xABCD : Nat).testBit 1 ∧
      s.gMODE = (0xABCD : Nat).testBit 2 ∧ s.gGTO = (0xABCD : Nat).testBit 3 ∧
      s.gSTA.toNat = ((0xABCD : Nat) >>> 4) &&& 0b11 ∧
      s.gOBJ.toNat = ((0xABCD : Nat) >>> 6) &&& 0b11 :=
  ⟨by decide, from_u8_total_and_bits 0xABCD (by decide)⟩

/-- C5: `read_fault_position` decodes the low byte of the word through
`GripperFaultStatus.from_u8` — bits 0-6 giving the seven fault flags in
order — and the high byte as the position; at 0x0203 the communication
fault is set with position 2, and at 0x0105 the control-command and
overcurrent faults are set, all others clear, with position 1. -/
theorem read_fault_position_decodes (w : Nat) (_hw : w < 65536) :
    (∃ fp, read_fault_position (Except.ok [w]) = .ok fp ∧
      fp.fault = GripperFaultStatus.from_u8 (w &&& 0xFF) ∧
      fp.position = (w >>> 8) &&& 0xFF ∧
      fp.fault.control_command_error = w.testBit 0 ∧
      fp.fault.communication_fault = w.testBit 1 ∧
      fp.fault.overcurrent_fault = w.testBit 2 ∧
      fp.fault.voltage_fault = w.testBit 3 ∧
      fp.fault.enabling_fault = w.testBit 4 ∧
      fp.fault.overtemperature_fault = w.testBit 5 ∧
      fp.fault.self_fault = w.testBit 6) ∧
    read_fault_position (Except.ok [0x0203]) =
      .ok ⟨⟨true, true, false, false, false, false, false⟩, 2⟩ ∧
    read_fault_position (Except.ok [0x0105]) =
      .ok ⟨⟨true, false, true, false, false, false, false⟩, 1⟩ := by
  refine ⟨⟨⟨GripperFaultStatus.from_u8 (w &&& 0xFF), (w >>> 8) &&& 0xFF⟩,
    rfl, rfl, rfl, ?_, ?_, ?_, ?_, ?_, ?_, ?_⟩, rfl, rfl⟩ <;>
  · show decide ((w &&& 0xFF) &&& (1 <<< _) ≠ 0) = _
    rw [and_one_shiftLeft]
    exact testBit_and_ff w _ (by norm_num)

/-- Witness for C5 at word 0x1342. -/
theorem read_fault_position_decodes_witness :
    (0x1342 : Nat) < 65536 ∧
    ∃ fp, read_fault_position (Except.ok [0x1342]) = .ok fp ∧
      fp.fault = GripperFaultStatus.from_u8 ((0x1342 : Nat) &&& 0xFF) ∧
      fp.position = ((0x1342 : Nat) >>> 8) &&& 0xFF ∧
      fp.fault.control_command_error = (0x1342 : Nat).testBit 0 ∧
      fp.fault.communication_fault = (0x1342 : Nat).testBit 1 ∧
      fp.fault.overcurrent_fault = (0x1342 : Nat).testBit 2 ∧
      fp.fault.voltage_fault = (0x1342 : Nat).testBit 3 ∧
      fp.fault.enabling_fault = (0x1342 : Nat).testBit 4 ∧
      fp.fault.overtemperature_fault = (0x1342 : Nat).testBit 5 ∧
      fp.fault.self_fault = (0x1342 : Nat).testBit 6 :=
  ⟨by decide, (read_fault_position_decodes 0x1342 (by decide)).1⟩

/-- Scan a write trace keeping flags for whether a SPEED_FORCE and a
POSITION write have already occurred: every CONTROL write carrying the
move-to-target bit (bit 3) must find both flags set. -/
def setupSeen (sf pos : Bool) : List RegWrite → Bool
  | [] => true
  | wr :: rest =>
      (!(wr.reg == Reg.CONTROL && wr.value.testBit 3) || (sf && pos)) &&
      setupSeen (sf || wr.reg == Reg.SPEED_FORCE) (pos || wr.reg == Reg.POSITION) rest

/-- Every control-register write carrying the move-to-target bit is
preceded, somewhere earlier in the trace, by a SPEED_FORCE write and a
POSITION write. -/
def movePrecededBySetup (tr : List RegWrite) : Bool :=
  setupSeen false false tr

/-- C6: `execute_control_movement` issues its writes in exactly the order
`set_speed_force`, then `move_to_position` (itself `_set_target_position`
followed by `execute_move`), then `execute_move`, so the SPEED_FORCE and
POSITION registers are both written before any CONTROL write carrying the
move-to-target bit. -/
theorem execute_control_movement_order (m : ExecuteControlMovement) :
    execute_control_movement m =
      set_speed_force m.speed m.force ++
        (_set_target_position m.position ++ execute_move) ++ execute_move ∧
    (execute_control_movement m).map RegWrite.reg =
      [.SPEED_FORCE, .POSITION, .CONTROL, .CONTROL] ∧
    movePrecededBySetup (execute_control_movement m) = true :=
  ⟨rfl, rfl, rfl⟩

/-- C7: for speed and force in 0..255, the 16-bit word written by
`set_speed_force` equals `speed ||| (force <<< 8)`. -/
theorem set_speed_force_word (speed force : Nat)
    (hs : speed < 256) (hf : force < 256) :
    set_speed_force speed force = [⟨Reg.SPEED_FORCE, speed ||| (force <<< 8)⟩] := by
  have hlt : speed + (force <<< 8) < 65536 := by
    rw [Nat.shiftLeft_eq]
    have : force * 2 ^ 8 ≤ 255 * 256 := by
      calc force * 2 ^ 8 ≤ 255 * 2 ^ 8 := Nat.mul_le_mul_right _ (by omega)
        _ = 255 * 256 := by norm_num
    omega
  show [writeReg Reg.SPEED_FORCE (speed + (force <<< 8))] = _
  rw [writeReg, Nat.mod_eq_of_lt hlt, add_shiftLeft_eq_lor speed force hs]

/-- Witness for C7 at speed 255, force 20. -/
theorem set_speed_force_word_witness :
    (255 : Nat) < 256 ∧ (20 : Nat) < 256 ∧
    set_speed_force 255 20 = [⟨Reg.SPEED_FORCE, 255 ||| (20 <<< 8)⟩] :=
  ⟨by decide, by decide, set_speed_force_word 255 20 (by decide) (by decide)⟩

/-- C8: `_set_target_position` hands `position <<< 8` to the transport, so
the register word the device receives is `(position <<< 8) % 2^16`: for a
byte-sized position nothing is truncated, while larger positions silently
lose their high bits (at 256 the register receives 0). -/
theorem set_target_position_word (position : Nat) :
    _set_target_position position =
      [⟨Reg.POSITION, (position <<< 8) % 2 ^ 16⟩] ∧
    (position < 256 →
      _set_target_position position = [⟨Reg.POSITION, position <<< 8⟩] ∧
      ((position <<< 8) % 2 ^ 16) >>> 8 = position ∧
      ((position <<< 8) % 2 ^ 16) % 256 = 0) ∧
    _set_target_position 256 = [⟨Reg.POSITION, 0⟩] := by
  have h16 : (2 : Nat) ^ 16 = 65536 := by norm_num
  have heq : position <<< 8 = position * 256 := by rw [Nat.shiftLeft_eq]
  refine ⟨rfl, fun hp => ?_, rfl⟩
  have hlt : position <<< 8 < 2 ^ 16 := by rw [heq, h16]; omega
  have hmod : (position <<< 8) % 2 ^ 16 = position <<< 8 := Nat.mod_eq_of_lt hlt
  have hmod65 : (position <<< 8) % 65536 = position <<< 8 := by rw [← h16]; exact hmod
  refine ⟨?_, ?_, ?_⟩
  · simp only [_set_target_position, writeReg, hmod65]
  · rw [hmod, heq, Nat.shiftRight_eq_div_pow]
    have h8 : (2 : Nat) ^ 8 = 256 := by norm_num
    rw [h8]
    omega
  · rw [hmod, heq]
    omega

/-- Witness for C8 at position 100. -/
theorem set_target_position_word_witness :
    (100 : Nat) < 256 ∧
    _set_target_position 100 = [⟨Reg.POSITION, 100 <<< 8⟩] ∧
    ((100 <<< 8 : Nat) % 2 ^ 16) >>> 8 = 100 ∧
    ((100 <<< 8 : Nat) % 2 ^ 16) % 256 = 0 :=
  ⟨by decide, (set_target_position_word 100).2.1 (by decide)⟩

/-- C9: `stop` and `activate` encode the identical command — `enable` true,
every other flag false — and both issue the single control byte 0x01 to the
CONTROL register. -/
theorem stop_eq_activate :
    stop = activate ∧
    stop = [⟨Reg.CONTROL, 0x01⟩] ∧
    activate = [⟨Reg.CONTROL, 0x01⟩] ∧
    ControlRegister.to_u8 ⟨true, false, false, false, false⟩ = 0x01 :=
  ⟨rfl, rfl, rfl, rfl⟩

/-- C10: the constructor stores any integer address unchecked (values above
247 and negative values both pass), while the `address` setter rejects
exactly the values strictly greater than 247 — so every negative integer is
accepted by the setter as well. -/
theorem address_validation :
    (HomwingGripper.init 300).address = 300 ∧
    (HomwingGripper.init (-5)).address = -5 ∧
    (∀ g : HomwingGripper, ∀ v : Int, v > 247 →
      g.setAddress v = .error "Invalid Address") ∧
    (∀ g : HomwingGripper, ∀ v : Int, v ≤ 247 →
      g.setAddress v = .ok { _address := v }) ∧
    (∀ g : HomwingGripper, ∀ v : Int, v < 0 →
      ∃ g2, g.setAddress v = .ok g2 ∧ g2.address = v) := by
  refine ⟨rfl, rfl, fun g v hv => ?_, fun g v hv => ?_, fun g v hv => ?_⟩
  · rw [HomwingGripper.setAddress, if_pos hv]
  · rw [HomwingGripper.setAddress, if_neg (by omega)]
  · exact ⟨{ _address := v }, by rw [HomwingGripper.setAddress, if_neg (by omega)], rfl⟩

/-- Witness for C10: assigning 248 fails, assigning -3 succeeds. -/
theorem address_validation_witness :
    (HomwingGripper.init 300).address = 300 ∧
    (HomwingGripper.init 0).setAddress 248 = .error "Invalid Address" ∧
    (HomwingGripper.init 0).setAddress (-3) = .ok { _address := -3 } ∧
    ∃ g2, (HomwingGripper.init 9).setAddress (-3) = .ok g2 ∧ g2.address = -3 := by
  have h := address_validation
  exact ⟨h.1, h.2.2.1 (HomwingGripper.init 0) 248 (by decide),
    h.2.2.2.1 (HomwingGripper.init 0) (-3) (by decide),
    h.2.2.2.2 (HomwingGripper.init 9) (-3) (by decide)⟩

/-- A status read never produces the timeout error: its failures are the
transport error or a Python decoding exception. -/
lemma read_gripper_status_ne_timeout (tr : Except Unit (List Nat)) :
    read_gripper_status tr ≠ .error .timeout := by
  rcases tr with e | regs
  · simp [read_gripper_status]
  · rcases hw : regs[0]? with _ | w
    · simp [read_gripper_status, hw]
    · rcases hs : GripperStatus.from_u8 (w &&& 0xFF) with _ | s <;>
        simp [read_gripper_status, hw, hs]

/-- A fault-position read never produces the timeout error. -/
lemma read_fault_position_ne_timeout (tr : Except Unit (List Nat)) :
    read_fault_position tr ≠ .error .timeout := by
  rcases tr with e | regs
  · simp [read_fault_position]
  · rcases hw : regs[0]? with _ | w <;> simp [read_fault_position, hw]

/-- If every status read reports a non-ACTIVATED state, the activation loop
consumes its whole budget and ends in timeout. -/
lemma wait_for_activationGo_timeout (reads : Nat → Except Unit (List Nat))
    (h : ∀ i, ∃ s, read_gripper_status (reads i) = .ok s ∧
      s.gSTA ≠ GSTA.ACTIVATED) :
    ∀ fuel i, wait_for_activationGo reads fuel i = .error .timeout := by
  intro fuel
  induction fuel with
  | zero =>
    intro i
    obtain ⟨s, hs, hn⟩ := h i
    simp only [wait_for_activationGo]
    rw [hs]
    simp [hn]
  | succ f ih =>
    intro i
    obtain ⟨s, hs, hn⟩ := h i
    simp only [wait_for_activationGo]
    rw [hs]
    simp [hn, ih]

/-- Any outcome the move loop can produce within any finite number of
iterations is not the timeout error. -/
lemma wait_for_moveGo_ne_timeout (reads : Nat → Except Unit (List Nat)) :
    ∀ fuel i r, wait_for_moveGo reads fuel i = some r →
      r ≠ .error .timeout := by
  intro fuel
  induction fuel with
  | zero =>
    intro i r hr
    simp [wait_for_moveGo] at hr
  | succ f ih =>
    intro i r hr
    rcases he : read_gripper_status (reads i) with e | s
    · simp only [wait_for_moveGo] at hr
      rw [he] at hr
      simp only [Option.some.injEq] at hr
      subst hr
      intro hc
      have hc2 : e = SessionError.timeout := by injection hc
      exact read_gripper_status_ne_timeout (reads i) (by rw [he, hc2])
    · simp only [wait_for_moveGo] at hr
      rw [he] at hr
      have hr2 : (if s.gOBJ ≠ GOBJ.MOVING_TO_POSITION then some (Except.ok (i + 1))
          else wait_for_moveGo reads f (i + 1)) = some r := hr
      by_cases hobj : s.gOBJ ≠ GOBJ.MOVING_TO_POSITION
      · rw [if_pos hobj] at hr2
        simp only [Option.some.injEq] at hr2
        subst hr2
        simp
      · rw [if_neg hobj] at hr2
        exact ih (i + 1) r hr2

/-- While every read reports MOVING_TO_POSITION the move loop is still
running after any finite number of iterations. -/
lemma wait_for_moveGo_none (reads : Nat → Except Unit (List Nat))
    (h : ∀ i, ∃ s, read_gripper_status (reads i) = .ok s ∧
      s.gOBJ = GOBJ.MOVING_TO_POSITION) :
    ∀ fuel i, wait_for_moveGo reads fuel i = none := by
  intro fuel
  induction fuel with
  | zero => intro i; rfl
  | succ f ih =>
    intro i
    obtain ⟨s, hs, hm⟩ := h i
    simp only [wait_for_moveGo]
    rw [hs]
    simp [hm, ih]

/-- The move loop returns normally at the first read whose motion state is
not MOVING_TO_POSITION, counting one poll per read. -/
lemma wait_for_moveGo_first (reads : Nat → Except Unit (List Nat)) :
    ∀ n fuel i s,
      (∀ j, j < n → ∃ t, read_gripper_status (reads (i + j)) = .ok t ∧
        t.gOBJ = GOBJ.MOVING_TO_POSITION) →
      read_gripper_status (reads (i + n)) = .ok s →
      s.gOBJ ≠ GOBJ.MOVING_TO_POSITION →
      n < fuel →
      wait_for_moveGo reads fuel i = some (.ok (i + n + 1)) := by
  intro n
  induction n with
  | zero =>
    intro fuel i s _ hs hobj hf
    obtain ⟨f, rfl⟩ : ∃ f, fuel = f + 1 := ⟨fuel - 1, by omega⟩
    rw [Nat.add_zero] at hs
    simp only [wait_for_moveGo]
    rw [hs]
    exact if_pos hobj
  | succ m ih =>
    intro fuel i s hpre hs hobj hf
    obtain ⟨f, rfl⟩ : ∃ f, fuel = f + 1 := ⟨fuel - 1, by omega⟩
    obtain ⟨t, ht, htm⟩ := hpre 0 (Nat.succ_pos m)
    rw [Nat.add_zero] at ht
    have hrec := ih f (i + 1) s
      (fun j hj => by
        have hp := hpre (j + 1) (by omega)
        rwa [show i + (j + 1) = i + 1 + j by omega] at hp)
      (by rwa [show i + 1 + m = i + (m + 1) by omega]) hobj (by omega)
    have harith : i + 1 + m + 1 = i + (m + 1) + 1 := by omega
    rw [harith] at hrec
    simp only [wait_for_moveGo]
    rw [ht]
    simp [htm, hrec]

/-- C3: `wait_for_activation` polls at 100 ms under an overall 5-second
deadline — a budget of 50 sleeps; on reads reporting ACTIVATING,
ACTIVATING, ACTIVATED it returns normally after exactly 3 polls; it ends in
timeout whenever no read reports ACTIVATED; and no other session
operation — the move loop or the decoding reads — can produce the timeout
error. -/
theorem wait_for_activation_spec :
    wait_for_activation (fun i => Except.ok [if i < 2 then 0x10 else 0x30, 0]) =
      .ok 3 ∧
    activationTimeoutMs = 5000 ∧ pollIntervalMs = 100 ∧
    activationTimeoutMs / pollIntervalMs = 50 ∧
    (∀ reads : Nat → Except Unit (List Nat),
      (∀ i, ∃ s, read_gripper_status (reads i) = .ok s ∧
        s.gSTA ≠ GSTA.ACTIVATED) →
      wait_for_activation reads = .error .timeout) ∧
    (∀ reads : Nat → Except Unit (List Nat), ∀ fuel i r,
      wait_for_moveGo reads fuel i = some r → r ≠ .error .timeout) ∧
    (∀ tr, read_gripper_status tr ≠ .error .timeout) ∧
    (∀ tr, read_fault_position tr ≠ .error .timeout) :=
  ⟨rfl, rfl, rfl, rfl,
    fun reads h => wait_for_activationGo_timeout reads h
      (activationTimeoutMs / pollIntervalMs) 0,
    wait_for_moveGo_ne_timeout,
    read_gripper_status_ne_timeout,
    read_fault_position_ne_timeout⟩

/-- Witness for C3: a stub that never reports ACTIVATED times out; the move
loop and the reads yield non-timeout outcomes on concrete inputs. -/
theorem wait_for_activation_spec_witness :
    wait_for_activation (fun _ => Except.ok [0x10, 0]) = .error .timeout ∧
    (Except.ok 1 : Except SessionError Nat) ≠ .error .timeout ∧
    read_gripper_status (Except.error ()) ≠ .error .timeout ∧
    read_fault_position (Except.ok []) ≠ .error .timeout := by
  have h := wait_for_activation_spec
  exact ⟨h.2.2.2.2.1 (fun _ => .ok [0x10, 0])
      (fun i => ⟨⟨false, false, false, false, .ACTIVATING, .MOVING_TO_POSITION⟩,
        rfl, by decide⟩),
    h.2.2.2.2.2.1 (fun _ => .ok [0x40, 0]) 1 0 (.ok 1) rfl,
    h.2.2.2.2.2.2.1 (.error ()),
    h.2.2.2.2.2.2.2 (.ok [])⟩

/-- C4: `wait_for_move` has no internal timeout — whenever every status
read reports MOVING_TO_POSITION it is still running after any number of
iterations — and it returns normally at the first read whose motion state
differs from MOVING_TO_POSITION. -/
theorem wait_for_move_spec :
    (∀ reads : Nat → Except Unit (List Nat),
      (∀ i, ∃ s, read_gripper_status (reads i) = .ok s ∧
        s.gOBJ = GOBJ.MOVING_TO_POSITION) →
      ∀ fuel, wait_for_move reads fuel = none) ∧
    (∀ reads : Nat → Except Unit (List Nat), ∀ n s,
      (∀ j, j < n → ∃ t, read_gripper_status (reads j) = .ok t ∧
        t.gOBJ = GOBJ.MOVING_TO_POSITION) →
      read_gripper_status (reads n) = .ok s →
      s.gOBJ ≠ GOBJ.MOVING_TO_POSITION →
      ∀ fuel, n < fuel → wait_for_move reads fuel = some (.ok (n + 1))) := by
  constructor
  · intro reads h fuel
    exact wait_for_moveGo_none reads h fuel 0
  · intro reads n s hpre hs hobj fuel hf
    have h0 := wait_for_moveGo_first reads n fuel 0 s
      (fun j hj => by simpa using hpre j hj) (by simpa using hs) hobj hf
    simpa using h0

/-- Witness for C4: a stub always reporting MOVING keeps the loop running;
a stub reporting MOVING, MOVING, then INNER_SUPPORT returns after 3 polls. -/
theorem wait_for_move_spec_witness :
    wait_for_move (fun _ => Except.ok [0, 0]) 7 = none ∧
    wait_for_move (fun i => Except.ok [if i < 2 then 0 else 0x40, 0]) 5 =
      some (.ok 3) := by
  have h := wait_for_move_spec
  constructor
  · exact h.1 (fun _ => .ok [0, 0])
      (fun i => ⟨⟨false, false, false, false, .RESET_OR_INSPECTION,
        .MOVING_TO_POSITION⟩, rfl, rfl⟩) 7
  · exact h.2 (fun i => .ok [if i < 2 then 0 else 0x40, 0]) 2
      ⟨false, false, false, false, .RESET_OR_INSPECTION, .INNER_SUPPORT⟩
      (fun j hj => ⟨⟨false, false, false, false, .RESET_OR_INSPECTION,
        .MOVING_TO_POSITION⟩, by simp only [if_pos hj]; rfl, rfl⟩)
      rfl (by decide) 5 (by decide)
